import Mathlib

/-!
Shallow embedding of the two dashboard pages of this repository:
the Library filter/sort engine (`LibraryPageClient.tsx`) and the
Services polling/restart state machine (the services page component).
Pure functions of the source are translated as Lean functions; the
stateful React hooks are translated as explicit state-passing on
record types, with the outcome of each network call supplied as an
explicit argument.  String operations of JavaScript (`toLowerCase`,
`includes`, `split`, `trim`, `localeCompare`, numeric `toString`,
`padStart`) are translated as structurally recursive functions over
`String.data`, so every definition evaluates inside the kernel.
-/

namespace Vexo

/-! ## Character and string primitives -/

/-- Model of JavaScript `toLowerCase` on one character: ASCII upper-case
letters are shifted into lower case, all other characters unchanged. -/
def lowerChar (c : Char) : Char :=
  if 65 ≤ c.toNat ∧ c.toNat ≤ 90 then Char.ofNat (c.toNat + 32) else c

/-- Model of JavaScript `String.prototype.toLowerCase`. -/
def toLowerStr (s : String) : String :=
  String.mk (s.data.map lowerChar)

/-- Checks that the hay list starts with the pattern list. -/
def leadsWith : List Char → List Char → Bool
  | _, [] => true
  | [], _ :: _ => false
  | a :: as, b :: bs => a == b && leadsWith as bs

/-- Checks that the hay list contains the pattern list as a contiguous
run; the model of JavaScript `String.prototype.includes`. -/
def containsSub : List Char → List Char → Bool
  | [], pat => leadsWith [] pat
  | a :: t, pat => leadsWith (a :: t) pat || containsSub t pat

/-- JavaScript `s.includes(sub)`. -/
def strIncludes (s sub : String) : Bool :=
  containsSub s.data sub.data

/-- Whitespace test used by the model of JavaScript `trim`. -/
def isSpaceChar (c : Char) : Bool :=
  c == ' ' || c == '\t' || c == '\n' || c == '\r'

/-- Model of JavaScript `String.prototype.trim`. -/
def trimStr (s : String) : String :=
  String.mk (((s.data.dropWhile isSpaceChar).reverse.dropWhile isSpaceChar).reverse)

/-- Model of JavaScript `split(",")` on the character list. -/
def splitComma : List Char → List (List Char)
  | [] => [[]]
  | c :: rest =>
    let r := splitComma rest
    if c == ',' then [] :: r
    else
      match r with
      | [] => [[c]]
      | h :: t => (c :: h) :: t

/-- JavaScript `s.split(",")`. -/
def splitCommaStr (s : String) : List String :=
  (splitComma s.data).map String.mk

/-- Lexicographic three-way comparison of character lists by code point,
the total order used to model `localeCompare` and the default array
sort on strings. -/
def lexCmp : List Char → List Char → Int
  | [], [] => 0
  | [], _ :: _ => -1
  | _ :: _, [] => 1
  | a :: as, b :: bs =>
    if a.toNat < b.toNat then -1
    else if b.toNat < a.toNat then 1
    else lexCmp as bs

/-- Model of `a.localeCompare(b)`: the locale-sensitive collation is
abstracted to code-point lexicographic comparison; only its
total-preorder structure matters for the properties proved below. -/
def localeCompare (a b : String) : Int :=
  lexCmp a.data b.data

/-- The comparison relation of the default `Array.prototype.sort` on
strings, used for the derived genre and source vocabularies. -/
def strLe (a b : String) : Prop :=
  lexCmp a.data b.data ≤ 0

instance : DecidableRel strLe := fun a b =>
  inferInstanceAs (Decidable (lexCmp a.data b.data ≤ 0))

/-- Model of JavaScript `s.padStart(2, "0")`. -/
def padStartTwoZero (s : String) : String :=
  if s.data.length < 2 then String.mk (List.replicate (2 - s.data.length) '0' ++ s.data)
  else s

/-! ## Library data model (`LibraryItem` of `LibraryPageClient.tsx`) -/

/-- One catalog row, translated field by field from the `LibraryItem`
interface.  Counters and durations are natural numbers. -/
structure LibraryItem where
  id : Int
  title : String
  artist_name : String
  album : Option String
  release_year : Option Int
  duration_seconds : Option Nat
  yt_id : Option String
  spotify_id : Option String
  genre : Option String
  contributors : Option String
  sources : Option String
  last_added : String
  play_count : Nat
  like_count : Nat
  dislike_count : Nat
deriving DecidableEq

/-- `formatDuration` of the source: the guard `if (!seconds)` treats
both `null` and `0` as falsy and yields the placeholder. -/
def formatDuration (seconds : Option Nat) : String :=
  match seconds with
  | none => "--:--"
  | some s =>
    if s = 0 then "--:--"
    else
      let mins := s / 60
      let secs := s % 60
      Nat.repr mins ++ ":" ++ padStartTwoZero (Nat.repr secs)

/-! ## Filter predicates -/

/-- The free-text search predicate of `filteredLibrary`: case-insensitive
containment of the query in the title, in the artist name, or in the
album when present. -/
def matchesSearch (searchQuery : String) (item : LibraryItem) : Bool :=
  let query := toLowerStr searchQuery
  strIncludes (toLowerStr item.title) query ||
  strIncludes (toLowerStr item.artist_name) query ||
  (match item.album with
   | some album => strIncludes (toLowerStr album) query
   | none => false)

/-- The genre filter predicate: case-insensitive containment of the
selected genre in the raw comma-joined genre field; a missing genre
field never matches. -/
def matchesGenre (genreFilter : String) (item : LibraryItem) : Bool :=
  match item.genre with
  | some g => strIncludes (toLowerStr g) (toLowerStr genreFilter)
  | none => false

/-- The source filter predicate, same containment policy against the raw
comma-joined sources field. -/
def matchesSource (sourceFilter : String) (item : LibraryItem) : Bool :=
  match item.sources with
  | some s => strIncludes (toLowerStr s) (toLowerStr sourceFilter)
  | none => false

/-- The search stage of `filteredLibrary`: applied only when the query
string is truthy, that is non-empty. -/
def applySearch (searchQuery : String) (l : List LibraryItem) : List LibraryItem :=
  if searchQuery = "" then l else l.filter (fun item => matchesSearch searchQuery item)

/-- The genre stage of `filteredLibrary`, skipped for the `all` sentinel. -/
def applyGenre (genreFilter : String) (l : List LibraryItem) : List LibraryItem :=
  if genreFilter = "all" then l else l.filter (fun item => matchesGenre genreFilter item)

/-- The source stage of `filteredLibrary`, skipped for the `all` sentinel. -/
def applySource (sourceFilter : String) (l : List LibraryItem) : List LibraryItem :=
  if sourceFilter = "all" then l else l.filter (fun item => matchesSource sourceFilter item)

/-! ## Sort comparators -/

/-- The five sort keys of the sort selector. -/
inductive SortKey
  | recent
  | title
  | artist
  | plays
  | likes
deriving DecidableEq

/-- The comparator of `result.sort`, one case per sort key.  The opaque
`Date.parse` chain of the `recent` case is abstracted as an arbitrary
timestamp valuation `getTime` of the `last_added` string. -/
def sortCmp (getTime : String → Int) (k : SortKey) (a b : LibraryItem) : Int :=
  match k with
  | SortKey.title => localeCompare a.title b.title
  | SortKey.artist => localeCompare a.artist_name b.artist_name
  | SortKey.plays => (b.play_count : Int) - (a.play_count : Int)
  | SortKey.likes => (b.like_count : Int) - (a.like_count : Int)
  | SortKey.recent => getTime b.last_added - getTime a.last_added

/-- The relation "the comparator does not put `a` after `b`"; a stable
sort under this relation is the ECMAScript meaning of `Array.sort` with
the comparator `sortCmp`. -/
def leKey (getTime : String → Int) (k : SortKey) (a b : LibraryItem) : Prop :=
  sortCmp getTime k a b ≤ 0

instance (getTime : String → Int) (k : SortKey) : DecidableRel (leKey getTime k) :=
  fun a b => inferInstanceAs (Decidable (sortCmp getTime k a b ≤ 0))

/-- `result.sort(comparator)`: `Array.prototype.sort` is stable, so it
is modelled by the stable insertion sort under `leKey`. -/
def sortLibrary (getTime : String → Int) (k : SortKey) (l : List LibraryItem) :
    List LibraryItem :=
  List.insertionSort (leKey getTime k) l

/-- The full `filteredLibrary` memo: copy of the library, then search,
genre and source filters in order, then the selected sort. -/
def filteredLibrary (getTime : String → Int) (lib : List LibraryItem)
    (searchQuery genreFilter sourceFilter : String) (sortBy : SortKey) :
    List LibraryItem :=
  sortLibrary getTime sortBy
    (applySource sourceFilter (applyGenre genreFilter (applySearch searchQuery lib)))

/-! ## Filter state, vocabularies, statistics -/

/-- The four pieces of component state driving `filteredLibrary`. -/
structure LibState where
  searchQuery : String
  genreFilter : String
  sourceFilter : String
  sortBy : SortKey
deriving DecidableEq

/-- `filteredLibrary` as a function of the bundled state. -/
def filteredLibraryOf (getTime : String → Int) (lib : List LibraryItem)
    (st : LibState) : List LibraryItem :=
  filteredLibrary getTime lib st.searchQuery st.genreFilter st.sourceFilter st.sortBy

/-- `clearFilters`: resets the query and both selectors; the sort key is
not touched. -/
def clearFilters (st : LibState) : LibState :=
  { st with searchQuery := "", genreFilter := "all", sourceFilter := "all" }

/-- `hasActiveFilters`: true iff any of the three filter criteria is
non-default. -/
def hasActiveFilters (st : LibState) : Bool :=
  st.searchQuery != "" || st.genreFilter != "all" || st.sourceFilter != "all"

/-- The comma-separated trimmed tokens of an optional field; a missing
field contributes no tokens. -/
def tokensOf (field : Option String) : List String :=
  match field with
  | none => []
  | some s => (splitCommaStr s).map trimStr

/-- The derived genre vocabulary: distinct trimmed genre tokens across
the library, sorted; `Array.from(genres).sort()`. -/
def allGenres (lib : List LibraryItem) : List String :=
  List.insertionSort strLe ((lib.flatMap (fun i => tokensOf i.genre)).dedup)

/-- The derived source vocabulary, same construction over `sources`. -/
def allSources (lib : List LibraryItem) : List String :=
  List.insertionSort strLe ((lib.flatMap (fun i => tokensOf i.sources)).dedup)

/-- The options rendered in the genre dropdown: `allGenres.slice(0, 20)`. -/
def genreOptions (lib : List LibraryItem) : List String :=
  (allGenres lib).take 20

/-- The options rendered in the source dropdown: all of `allSources`. -/
def sourceOptions (lib : List LibraryItem) : List String :=
  allSources lib

/-- Total duration in seconds over the whole library, missing durations
counting as zero. -/
def totalDurationOf (lib : List LibraryItem) : Nat :=
  lib.foldl (fun sum i => sum + i.duration_seconds.getD 0) 0

/-- The aggregate statistics banner values. -/
structure LibraryStats where
  uniqueArtists : Nat
  uniqueGenres : Nat
  totalPlays : Nat
  totalLikes : Nat
  totalHours : Nat
  totalMins : Nat
deriving DecidableEq

/-- The statistics as the component computes them each render: they are
functions of the unfiltered library alone, even though the filter state
is in scope, which the unused second argument records. -/
def pageStats (lib : List LibraryItem) (_st : LibState) : LibraryStats :=
  { uniqueArtists := (lib.map (fun i => i.artist_name)).dedup.length
  , uniqueGenres := (allGenres lib).length
  , totalPlays := lib.foldl (fun sum i => sum + i.play_count) 0
  , totalLikes := lib.foldl (fun sum i => sum + i.like_count) 0
  , totalHours := totalDurationOf lib / 3600
  , totalMins := totalDurationOf lib % 3600 / 60 }

/-! ## Services page data model -/

/-- The status enum of a service. -/
inductive ServiceStatus
  | online
  | offline
  | restarting
  | starting
deriving DecidableEq

/-- One service entry, translated from the `Service` interface. -/
structure Service where
  id : String
  name : String
  description : String
  status : ServiceStatus
  uptime : Option String
  restartable : Bool
deriving DecidableEq

/-- The local state of the services page: service list, RestartSet
(modelled as a duplicate-free list of ids), loading flag and error
banner message. -/
structure ServicesState where
  services : List Service
  restartingServices : List String
  loading : Bool
  error : Option String
deriving DecidableEq

/-- The state the component mounts with. -/
def initialServicesState : ServicesState :=
  { services := [], restartingServices := [], loading := true, error := none }

/-- The first fallback entry: the bot service, offline and restartable. -/
def botFallback : Service :=
  { id := "bot"
  , name := "Discord Bot"
  , description := "Core Discord bot handling commands and audio playback"
  , status := ServiceStatus.offline
  , uptime := some "—"
  , restartable := true }

/-- The second fallback entry: the dashboard, online and not restartable. -/
def dashboardFallback : Service :=
  { id := "dashboard"
  , name := "Dashboard"
  , description := "This Next.js web dashboard"
  , status := ServiceStatus.online
  , uptime := some "Running"
  , restartable := false }

/-- The fixed two-entry list substituted when the poll fails. -/
def fallbackServices : List Service :=
  [botFallback, dashboardFallback]

/-- The outcome of one `GET /services` call: a 2xx response carrying an
optional `services` array, or any transport or status failure. -/
inductive FetchOutcome
  | ok (services : Option (List Service))
  | failure
deriving DecidableEq

/-- `fetchServices`: on success replaces the list (missing array read as
empty) and clears the error; on failure sets the banner message and
substitutes the fallback list; either way loading ends. -/
def fetchServices (outcome : FetchOutcome) (s : ServicesState) : ServicesState :=
  match outcome with
  | FetchOutcome.ok data =>
    { s with services := data.getD [], error := none, loading := false }
  | FetchOutcome.failure =>
    { s with
        error := some "Failed to connect to bot API"
      , services := fallbackServices
      , loading := false }

/-- The externally visible steps a restart invocation performs, in
order: the POST to the restart route, the fixed grace delay, the
re-invocation of `fetchServices`, and the console log of a failure. -/
inductive RestartStep
  | post (serviceId : String)
  | sleep (ms : Nat)
  | refetch
  | logFailure
deriving DecidableEq

/-- The outcome of the restart POST: accepted (followed by a refetch
whose own outcome is carried along), or rejected or failed. -/
inductive RestartOutcome
  | ok (fetch : FetchOutcome)
  | failure
deriving DecidableEq

/-- `new Set(prev).add(id)`. -/
def setAdd (id : String) (l : List String) : List String :=
  if l.contains id then l else l ++ [id]

/-- `next.delete(id)` on a copy of the set. -/
def setDelete (id : String) (l : List String) : List String :=
  l.filter (fun x => x != id)

/-- `handleRestart`: adds the id to RestartSet, issues the POST; on a
2xx response waits the 5000 ms grace period and re-invokes
`fetchServices`; on failure only logs; the `finally` block removes the
id from RestartSet on every path.  The returned list records the
externally visible steps in order. -/
def handleRestart (serviceId : String) (outcome : RestartOutcome)
    (s : ServicesState) : ServicesState × List RestartStep :=
  let s1 := { s with restartingServices := setAdd serviceId s.restartingServices }
  match outcome with
  | RestartOutcome.ok fetchOutcome =>
    let s2 := fetchServices fetchOutcome s1
    ({ s2 with restartingServices := setDelete serviceId s2.restartingServices },
      [RestartStep.post serviceId, RestartStep.sleep 5000, RestartStep.refetch])
  | RestartOutcome.failure =>
    ({ s1 with restartingServices := setDelete serviceId s1.restartingServices },
      [RestartStep.post serviceId, RestartStep.logFailure])

/-- The `disabled` guard of the restart button in `ServiceCard`. -/
def restartDisabled (service : Service) (s : ServicesState) : Bool :=
  s.restartingServices.contains service.id || !service.restartable

/-- A click on the restart button of a service card: a disabled button
never fires, so a guarded invocation performs nothing; otherwise it runs
`handleRestart` on the id of the card. -/
def restartClick (service : Service) (outcome : RestartOutcome)
    (s : ServicesState) : ServicesState × List RestartStep :=
  if restartDisabled service s then (s, [])
  else handleRestart service.id outcome s

/-! ## Concrete fixtures used by scenario claims and witnesses -/

/-- A concrete timestamp valuation for scenarios: the length of the
`last_added` string, so that `"22"` is more recent than `"1"`. -/
def demoGetTime (s : String) : Int :=
  Int.ofNat s.data.length

/-- First scenario item: genres `Pop,Rock`, source `spotify_import`,
most recent of the fixtures. -/
def demoRock : LibraryItem :=
  { id := 1, title := "Rock Song", artist_name := "A", album := none
  , release_year := none, duration_seconds := some 125, yt_id := none
  , spotify_id := none, genre := some "Pop,Rock", contributors := none
  , sources := some "spotify_import", last_added := "22"
  , play_count := 3, like_count := 1, dislike_count := 0 }

/-- Second scenario item: genre `Jazz`, source `request`, oldest. -/
def demoJazz : LibraryItem :=
  { id := 2, title := "Jazz Song", artist_name := "B", album := some "Alb"
  , release_year := none, duration_seconds := none, yt_id := none
  , spotify_id := none, genre := some "Jazz", contributors := none
  , sources := some "request", last_added := "1"
  , play_count := 5, like_count := 0, dislike_count := 0 }

/-- An item carrying twenty-one distinct genre tokens, used to exercise
the twenty-option cap of the genre dropdown. -/
def genreRichItem : LibraryItem :=
  { id := 3, title := "T", artist_name := "A", album := none
  , release_year := none, duration_seconds := none, yt_id := none
  , spotify_id := none
  , genre := some "g01,g02,g03,g04,g05,g06,g07,g08,g09,g10,g11,g12,g13,g14,g15,g16,g17,g18,g19,g20,g21"
  , contributors := none, sources := none, last_added := "1"
  , play_count := 0, like_count := 0, dislike_count := 0 }

/-- A filter state with an active free-text query and the default sort. -/
def activeState : LibState :=
  { searchQuery := "x", genreFilter := "all", sourceFilter := "all"
  , sortBy := SortKey.recent }

/-! ## Comparator lemmas -/

/-- Swapping the arguments of `lexCmp` negates the result. -/
theorem lexCmp_swap : ∀ (x y : List Char), lexCmp y x = - lexCmp x y := by
  intro x
  induction x with
  | nil =>
    intro y
    cases y with
    | nil => decide
    | cons b bs => simp only [lexCmp]; decide
  | cons a as ih =>
    intro y
    cases y with
    | nil => simp [lexCmp]
    | cons b bs =>
      simp only [lexCmp]
      split_ifs <;> first | omega | exact ih bs

/-- The relation `lexCmp x y ≤ 0` is total. -/
theorem lexCmp_total (x y : List Char) : lexCmp x y ≤ 0 ∨ lexCmp y x ≤ 0 := by
  have h := lexCmp_swap x y
  omega

/-- The relation `lexCmp x y ≤ 0` is transitive. -/
theorem lexCmp_trans : ∀ (x y z : List Char),
    lexCmp x y ≤ 0 → lexCmp y z ≤ 0 → lexCmp x z ≤ 0 := by
  intro x
  induction x with
  | nil =>
    intro y z _ _
    cases z with
    | nil => decide
    | cons c cs => simp only [lexCmp]; decide
  | cons a as ih =>
    intro y z hxy hyz
    cases y with
    | nil => simp only [lexCmp] at hxy; exact absurd hxy (by decide)
    | cons b bs =>
      cases z with
      | nil => simp only [lexCmp] at hyz; exact absurd hyz (by decide)
      | cons c cs =>
        simp only [lexCmp] at hxy hyz ⊢
        split_ifs at hxy hyz ⊢ <;>
          first
          | exact ih bs cs hxy hyz
          | omega

/-- Ties of `lexCmp` against a common third list propagate. -/
theorem lexCmp_zero_trans : ∀ (x y c : List Char),
    lexCmp x c = 0 → lexCmp y c = 0 → lexCmp x y = 0 := by
  intro x
  induction x with
  | nil =>
    intro y c hx hy
    cases c with
    | nil =>
      cases y with
      | nil => rfl
      | cons b bs => simp only [lexCmp] at hy; exact absurd hy (by decide)
    | cons c0 cs => simp only [lexCmp] at hx; exact absurd hx (by decide)
  | cons a as ih =>
    intro y c hx hy
    cases c with
    | nil => simp only [lexCmp] at hx; exact absurd hx (by decide)
    | cons c0 cs =>
      cases y with
      | nil => simp only [lexCmp] at hy; exact absurd hy (by decide)
      | cons b bs =>
        simp only [lexCmp] at hx hy ⊢
        split_ifs at hx hy ⊢ <;>
          first
          | exact ih bs cs hx hy
          | omega

/-- `leKey` is total for every sort key and timestamp valuation. -/
theorem leKey_total (getTime : String → Int) (k : SortKey) :
    ∀ a b : LibraryItem, leKey getTime k a b ∨ leKey getTime k b a := by
  intro a b
  cases k <;>
    simp only [leKey, sortCmp, localeCompare] <;>
    first
    | exact lexCmp_total _ _
    | omega

/-- `leKey` is transitive for every sort key and timestamp valuation. -/
theorem leKey_trans (getTime : String → Int) (k : SortKey) :
    ∀ a b c : LibraryItem,
      leKey getTime k a b → leKey getTime k b c → leKey getTime k a c := by
  intro a b c hab hbc
  cases k <;>
    simp only [leKey, sortCmp, localeCompare] at hab hbc ⊢ <;>
    first
    | exact lexCmp_trans _ _ _ hab hbc
    | omega

/-- Two items tied with a common third item under the comparator are
mutually non-after each other. -/
theorem leKey_of_tied (getTime : String → Int) (k : SortKey)
    (x y c : LibraryItem) (hx : sortCmp getTime k x c = 0)
    (hy : sortCmp getTime k y c = 0) : leKey getTime k x y := by
  cases k <;>
    simp only [leKey, sortCmp, localeCompare] at hx hy ⊢ <;>
    first
    | (have h0 := lexCmp_zero_trans _ _ _ hx hy; omega)
    | omega

/-- The id just deleted from the RestartSet is not a member afterwards. -/
theorem not_mem_setDelete (id : String) (l : List String) :
    id ∉ setDelete id l := by
  intro h
  have h2 := (List.mem_filter.mp h).2
  simp at h2

/-- The derived genre vocabulary has no duplicate entries. -/
theorem allGenres_nodup (lib : List LibraryItem) : (allGenres lib).Nodup :=
  (List.perm_insertionSort strLe _).symm.nodup (List.nodup_dedup _)

/-- Membership in the search stage is membership in the input plus the
search criterion when the query is active. -/
theorem mem_of_applySearch {q : String} {l : List LibraryItem} {x : LibraryItem}
    (hx : x ∈ applySearch q l) :
    x ∈ l ∧ (q ≠ "" → matchesSearch q x = true) := by
  unfold applySearch at hx
  by_cases hq : q = ""
  · rw [if_pos hq] at hx
    exact ⟨hx, fun hne => absurd hq hne⟩
  · rw [if_neg hq] at hx
    have h2 := List.mem_filter.mp hx
    exact ⟨h2.1, fun _ => h2.2⟩

/-- Membership in the genre stage is membership in the input plus the
genre criterion when the selector is active. -/
theorem mem_of_applyGenre {g : String} {l : List LibraryItem} {x : LibraryItem}
    (hx : x ∈ applyGenre g l) :
    x ∈ l ∧ (g ≠ "all" → matchesGenre g x = true) := by
  unfold applyGenre at hx
  by_cases hg : g = "all"
  · rw [if_pos hg] at hx
    exact ⟨hx, fun hne => absurd hg hne⟩
  · rw [if_neg hg] at hx
    have h2 := List.mem_filter.mp hx
    exact ⟨h2.1, fun _ => h2.2⟩

/-- Membership in the source stage is membership in the input plus the
source criterion when the selector is active. -/
theorem mem_of_applySource {s : String} {l : List LibraryItem} {x : LibraryItem}
    (hx : x ∈ applySource s l) :
    x ∈ l ∧ (s ≠ "all" → matchesSource s x = true) := by
  unfold applySource at hx
  by_cases hs : s = "all"
  · rw [if_pos hs] at hx
    exact ⟨hx, fun hne => absurd hs hne⟩
  · rw [if_neg hs] at hx
    have h2 := List.mem_filter.mp hx
    exact ⟨h2.1, fun _ => h2.2⟩

/-! ## Claim theorems -/

/-- C1 (counterexample): a guarded restart invocation whose POST fails
skips the 5-second grace period and the `fetchServices` re-invocation,
contradicting the claim that both happen regardless of the outcome. -/
theorem claim_restart_grace_counterexample :
    ¬ (RestartStep.sleep 5000 ∈
        (handleRestart "bot" RestartOutcome.failure initialServicesState).2 ∧
       RestartStep.refetch ∈
        (handleRestart "bot" RestartOutcome.failure initialServicesState).2) := by
  decide

/-- C1 (amended): the id is removed from RestartSet on every path, on
success and on failure alike; the 5-second grace period followed by the
`fetchServices` re-invocation happens exactly on the success path, while
a failed restart command is only logged and skips both. -/
theorem claim_restart_grace_amended :
    ∀ (serviceId : String) (outcome : RestartOutcome) (s : ServicesState),
    serviceId ∉ (handleRestart serviceId outcome s).1.restartingServices ∧
    (∀ fo : FetchOutcome, outcome = RestartOutcome.ok fo →
      (handleRestart serviceId outcome s).2 =
        [RestartStep.post serviceId, RestartStep.sleep 5000, RestartStep.refetch]) ∧
    (outcome = RestartOutcome.failure →
      (handleRestart serviceId outcome s).2 =
        [RestartStep.post serviceId, RestartStep.logFailure]) := by
  intro serviceId outcome s
  refine ⟨?_, ?_, ?_⟩
  · cases outcome <;> exact not_mem_setDelete _ _
  · intro fo hfo; subst hfo; rfl
  · intro hf; subst hf; rfl

/-- C1 witness: the amended statement evaluated on a failing restart of
the bot service from the initial state. -/
theorem claim_restart_grace_amended_witness :
    "bot" ∉ (handleRestart "bot" RestartOutcome.failure
        initialServicesState).1.restartingServices ∧
    (handleRestart "bot" RestartOutcome.failure initialServicesState).2 =
      [RestartStep.post "bot", RestartStep.logFailure] :=
  ⟨(claim_restart_grace_amended "bot" RestartOutcome.failure initialServicesState).1,
   (claim_restart_grace_amended "bot" RestartOutcome.failure initialServicesState).2.2 rfl⟩

/-- C3: clicking restart on a service whose `restartable` flag is false,
or whose id is already in RestartSet, is a no-op: no restart step is
issued and the state is unchanged. -/
theorem claim_restart_guard :
    ∀ (service : Service) (outcome : RestartOutcome) (s : ServicesState),
    service.restartable = false ∨ service.id ∈ s.restartingServices →
    restartClick service outcome s = (s, []) := by
  intro service outcome s h
  have hd : restartDisabled service s = true := by
    unfold restartDisabled
    rcases h with h1 | h2
    · simp [h1]
    · have hc : s.restartingServices.contains service.id = true := by simpa using h2
      rw [hc, Bool.true_or]
  simp [restartClick, hd]

/-- C3 witness: the guard applied to the non-restartable dashboard entry
in the initial state. -/
theorem claim_restart_guard_witness :
    (dashboardFallback.restartable = false ∨
      dashboardFallback.id ∈ initialServicesState.restartingServices) ∧
    restartClick dashboardFallback RestartOutcome.failure initialServicesState =
      (initialServicesState, []) :=
  ⟨Or.inl rfl,
   claim_restart_guard dashboardFallback RestartOutcome.failure initialServicesState
     (Or.inl rfl)⟩

/-- C5: a failed poll sets the error banner and substitutes exactly the
two-entry fallback list, bot offline and restartable, dashboard online
and not restartable; the next successful poll clears the banner and the
list equals exactly the services of the response. -/
theorem claim_fetch_fallback : ∀ (s : ServicesState) (svcs : List Service),
    (fetchServices FetchOutcome.failure s).services = fallbackServices ∧
    ((fetchServices FetchOutcome.failure s).services.map
        (fun v => (v.id, v.status, v.restartable))) =
      [("bot", ServiceStatus.offline, true),
       ("dashboard", ServiceStatus.online, false)] ∧
    (fetchServices FetchOutcome.failure s).error =
      some "Failed to connect to bot API" ∧
    (fetchServices (FetchOutcome.ok (some svcs))
        (fetchServices FetchOutcome.failure s)).services = svcs ∧
    (fetchServices (FetchOutcome.ok (some svcs))
        (fetchServices FetchOutcome.failure s)).error = none :=
  fun _ _ => ⟨rfl, rfl, rfl, rfl, rfl⟩

/-- C8: the aggregate statistics are a function of the unfiltered
library alone; any two filter/sort states yield identical statistics. -/
theorem claim_stats_ignore_filters :
    ∀ (lib : List LibraryItem) (st1 st2 : LibState),
    pageStats lib st1 = pageStats lib st2 :=
  fun _ _ _ => rfl

/-- C9: `formatDuration` renders the placeholder for a missing duration
and equally for a zero duration (the falsy guard), so zero is never
rendered as `0:00`; a positive duration renders the minute count, a
colon, and the two-digit zero-padded second remainder, as in 125 to
`2:05`. -/
theorem claim_formatDuration :
    formatDuration none = "--:--" ∧
    formatDuration (some 0) = "--:--" ∧
    (∀ n : Nat, 0 < n →
      formatDuration (some n) =
        Nat.repr (n / 60) ++ ":" ++ padStartTwoZero (Nat.repr (n % 60))) ∧
    (∀ m : Nat, m < 60 → (padStartTwoZero (Nat.repr m)).data.length = 2) ∧
    formatDuration (some 125) = "2:05" := by
  refine ⟨rfl, rfl, ?_, by decide, by decide⟩
  intro n hn
  have hne : n ≠ 0 := Nat.pos_iff_ne_zero.mp hn
  simp only [formatDuration, if_neg hne]

/-- C9 witness: the positive-duration clause evaluated at 125 seconds. -/
theorem claim_formatDuration_witness :
    formatDuration (some 125) =
      Nat.repr (125 / 60) ++ ":" ++ padStartTwoZero (Nat.repr (125 % 60)) :=
  claim_formatDuration.2.2.1 125 (by decide)

/-- C2 (counterexample): with the default `recent` sort still active,
clearing the filters over a library whose oldest entry comes first does
not return `initialLibrary` in order — the recomputed view is re-sorted
descending by timestamp, so the claimed equality fails. -/
theorem claim_clearFilters_counterexample :
    ¬ (filteredLibraryOf demoGetTime [demoJazz, demoRock] (clearFilters activeState) =
        [demoJazz, demoRock] ∧
       hasActiveFilters (clearFilters activeState) = false) := by
  decide

/-- C2 (amended): `clearFilters` resets the query to empty and both
selectors to `all` in one state update, leaves the sort key untouched,
and makes `hasActiveFilters` false; the resulting `filteredLibrary` is
the whole library re-sorted by the still-active sort key — always a
permutation of `initialLibrary`, and equal to it in order exactly when
`initialLibrary` is already sorted by that key. -/
theorem claim_clearFilters_amended :
    ∀ (getTime : String → Int) (lib : List LibraryItem) (st : LibState),
    (clearFilters st).searchQuery = "" ∧
    (clearFilters st).genreFilter = "all" ∧
    (clearFilters st).sourceFilter = "all" ∧
    (clearFilters st).sortBy = st.sortBy ∧
    hasActiveFilters (clearFilters st) = false ∧
    filteredLibraryOf getTime lib (clearFilters st) =
      sortLibrary getTime st.sortBy lib ∧
    (filteredLibraryOf getTime lib (clearFilters st)).Perm lib ∧
    (lib.Pairwise (leKey getTime st.sortBy) →
      filteredLibraryOf getTime lib (clearFilters st) = lib) := by
  intro getTime lib st
  refine ⟨rfl, rfl, rfl, rfl, rfl, rfl, ?_, ?_⟩
  · exact List.perm_insertionSort (leKey getTime st.sortBy) lib
  · intro h
    exact List.Sorted.insertionSort_eq h

/-- C2 witness: the amended statement evaluated on a two-item library
already in descending recency order. -/
theorem claim_clearFilters_amended_witness :
    List.Pairwise (leKey demoGetTime SortKey.recent) [demoRock, demoJazz] ∧
    filteredLibraryOf demoGetTime [demoRock, demoJazz] (clearFilters activeState) =
      [demoRock, demoJazz] :=
  ⟨by decide,
   (claim_clearFilters_amended demoGetTime [demoRock, demoJazz]
      activeState).2.2.2.2.2.2.2 (by decide)⟩

/-- C4: every element of `filteredLibrary` is an element of the input
library, and satisfies each of the three filter criteria that is
active. -/
theorem claim_filtered_subset : ∀ (getTime : String → Int)
    (lib : List LibraryItem) (q g s : String) (k : SortKey) (x : LibraryItem),
    x ∈ filteredLibrary getTime lib q g s k →
    x ∈ lib ∧ (q ≠ "" → matchesSearch q x = true) ∧
      (g ≠ "all" → matchesGenre g x = true) ∧
      (s ≠ "all" → matchesSource s x = true) := by
  intro getTime lib q g s k x hx
  unfold filteredLibrary sortLibrary at hx
  rw [List.mem_insertionSort] at hx
  have h3 := mem_of_applySource hx
  have h2 := mem_of_applyGenre h3.1
  have h1 := mem_of_applySearch h2.1
  exact ⟨h1.1, h1.2, h2.2, h3.2⟩

/-- C4 witness: the subset-and-predicate statement evaluated on the
two-item fixture library with the genre filter `Rock` active. -/
theorem claim_filtered_subset_witness :
    demoRock ∈ filteredLibrary demoGetTime [demoRock, demoJazz] "" "Rock" "all"
      SortKey.recent ∧
    demoRock ∈ [demoRock, demoJazz] ∧ matchesGenre "Rock" demoRock = true :=
  ⟨by decide,
   (claim_filtered_subset demoGetTime [demoRock, demoJazz] "" "Rock" "all"
      SortKey.recent demoRock (by decide)).1,
   (claim_filtered_subset demoGetTime [demoRock, demoJazz] "" "Rock" "all"
      SortKey.recent demoRock (by decide)).2.2.1 (by decide)⟩

/-- C6: an item passes the genre criterion iff its lowercased raw genre
field contains the lowercased selection as a substring, a missing genre
field never passing, and the same policy holds for sources; on the
two-item fixture library, genre `Rock` selects exactly the first item
and source `request` exactly the second. -/
theorem claim_genre_source_semantics :
    (∀ (g : String) (item : LibraryItem), matchesGenre g item = true ↔
      ∃ raw, item.genre = some raw ∧
        strIncludes (toLowerStr raw) (toLowerStr g) = true) ∧
    (∀ (s : String) (item : LibraryItem), matchesSource s item = true ↔
      ∃ raw, item.sources = some raw ∧
        strIncludes (toLowerStr raw) (toLowerStr s) = true) ∧
    (∀ getTime : String → Int,
      filteredLibrary getTime [demoRock, demoJazz] "" "Rock" "all"
        SortKey.recent = [demoRock]) ∧
    (∀ getTime : String → Int,
      filteredLibrary getTime [demoRock, demoJazz] "" "all" "request"
        SortKey.recent = [demoJazz]) := by
  refine ⟨?_, ?_, fun _ => rfl, fun _ => rfl⟩
  · intro g item
    unfold matchesGenre
    cases hg : item.genre with
    | none => simp
    | some raw => simp
  · intro s item
    unfold matchesSource
    cases hs : item.sources with
    | none => simp
    | some raw => simp

/-- C7: re-sorting an already sorted list is the identity — in
particular the sort is idempotent — and the sort is stable: the items
tied with any fixed item keep exactly their relative order from the
filtered input. -/
theorem claim_sort_idempotent_stable : ∀ (getTime : String → Int) (k : SortKey)
    (l : List LibraryItem) (c : LibraryItem),
    sortLibrary getTime k (sortLibrary getTime k l) = sortLibrary getTime k l ∧
    (l.Pairwise (leKey getTime k) → sortLibrary getTime k l = l) ∧
    (sortLibrary getTime k l).filter (fun x => decide (sortCmp getTime k x c = 0)) =
      l.filter (fun x => decide (sortCmp getTime k x c = 0)) := by
  intro getTime k l c
  haveI : IsTotal LibraryItem (leKey getTime k) := ⟨leKey_total getTime k⟩
  haveI : IsTrans LibraryItem (leKey getTime k) := ⟨leKey_trans getTime k⟩
  refine ⟨?_, ?_, ?_⟩
  · exact (List.sorted_insertionSort (leKey getTime k) l).insertionSort_eq
  · intro h
    exact List.Sorted.insertionSort_eq h
  · have hsub : List.Sublist (l.filter (fun x => decide (sortCmp getTime k x c = 0))) l :=
      List.filter_sublist l
    have hpw : (l.filter (fun x => decide (sortCmp getTime k x c = 0))).Pairwise
        (leKey getTime k) := by
      apply List.pairwise_of_forall_mem_list
      intro a ha b hb
      have ha2 := (List.mem_filter.mp ha).2
      have hb2 := (List.mem_filter.mp hb).2
      exact leKey_of_tied getTime k a b c (of_decide_eq_true ha2) (of_decide_eq_true hb2)
    have h1 : List.Sublist (l.filter (fun x => decide (sortCmp getTime k x c = 0)))
        (List.insertionSort (leKey getTime k) l) :=
      List.sublist_insertionSort hpw hsub
    have hff : (l.filter (fun x => decide (sortCmp getTime k x c = 0))).filter
        (fun x => decide (sortCmp getTime k x c = 0)) =
        l.filter (fun x => decide (sortCmp getTime k x c = 0)) :=
      List.filter_eq_self.mpr (fun a ha => (List.mem_filter.mp ha).2)
    have h2 : List.Sublist (l.filter (fun x => decide (sortCmp getTime k x c = 0)))
        ((List.insertionSort (leKey getTime k) l).filter
          (fun x => decide (sortCmp getTime k x c = 0))) := by
      have h3 := h1.filter (fun x => decide (sortCmp getTime k x c = 0))
      rwa [hff] at h3
    have hperm : ((List.insertionSort (leKey getTime k) l).filter
        (fun x => decide (sortCmp getTime k x c = 0))).Perm
        (l.filter (fun x => decide (sortCmp getTime k x c = 0))) :=
      (List.perm_insertionSort (leKey getTime k) l).filter _
    exact (h2.eq_of_length hperm.length_eq.symm).symm

/-- C7 witness: the sorted-list clause evaluated on the two-item fixture
library in descending recency order. -/
theorem claim_sort_idempotent_stable_witness :
    List.Pairwise (leKey demoGetTime SortKey.recent) [demoRock, demoJazz] ∧
    sortLibrary demoGetTime SortKey.recent [demoRock, demoJazz] =
      [demoRock, demoJazz] :=
  ⟨by decide,
   (claim_sort_idempotent_stable demoGetTime SortKey.recent [demoRock, demoJazz]
      demoRock).2.1 (by decide)⟩

/-- C10: the genre dropdown renders at most the first twenty entries of
the sorted genre vocabulary — an entry at index twenty or beyond is
never offered — while the source dropdown renders the entire source
vocabulary. -/
theorem claim_dropdown_limits : ∀ (lib : List LibraryItem) (i : Nat)
    (h : i < (allGenres lib).length),
    (genreOptions lib).length ≤ 20 ∧
    genreOptions lib = (allGenres lib).take 20 ∧
    sourceOptions lib = allSources lib ∧
    (20 ≤ i → (allGenres lib).get ⟨i, h⟩ ∉ genreOptions lib) := by
  intro lib i h
  refine ⟨?_, rfl, rfl, ?_⟩
  · have hlen : (genreOptions lib).length = 20 ⊓ (allGenres lib).length :=
      List.length_take _ _
    rw [hlen]
    exact inf_le_left
  · intro hi hmem
    obtain ⟨j, hj⟩ := List.mem_iff_get.mp hmem
    have hj2 : (j : Nat) < 20 ⊓ (allGenres lib).length :=
      lt_of_lt_of_eq j.isLt (List.length_take _ _)
    have hjlt : (j : Nat) < 20 := (lt_inf_iff.mp hj2).1
    have hjlen : (j : Nat) < (allGenres lib).length := (lt_inf_iff.mp hj2).2
    have hjget : (genreOptions lib).get j = (allGenres lib).get ⟨j, hjlen⟩ := by
      rw [List.get_eq_getElem, List.get_eq_getElem]
      exact List.getElem_take _
    have heq : (allGenres lib).get ⟨(j : Nat), hjlen⟩ = (allGenres lib).get ⟨i, h⟩ := by
      rw [← hjget]
      exact hj
    have hinj := List.nodup_iff_injective_get.mp (allGenres_nodup lib) heq
    have hval : (j : Nat) = i := congrArg Fin.val hinj
    omega

/-- The fixture item with twenty-one genre tokens indeed yields a
vocabulary longer than twenty entries. -/
theorem genreRich_twentyFirst : 20 < (allGenres [genreRichItem]).length := by
  decide

/-- C10 witness: the twenty-first genre of the fixture vocabulary is not
offered by the genre dropdown. -/
theorem claim_dropdown_limits_witness :
    (allGenres [genreRichItem]).get ⟨20, genreRich_twentyFirst⟩ ∉
      genreOptions [genreRichItem] :=
  (claim_dropdown_limits [genreRichItem] 20 genreRich_twentyFirst).2.2.2 (by decide)

end Vexo
